import Mathlib

/-!
Verification of the stock-analysis core (indicators.py, patterns.py, kpis.py)
against its natural-language specification.

The Python source operates on pandas DataFrames of OHLCV bars.  We embed a
series as a `List Bar` in date-sorted order (the loader contract guarantees
sorted, duplicate-free input; `detect_candlestick_patterns` re-sorts, which is
the identity on such input), a bar's numeric fields as rationals, and pandas
NaN/inf results of zero-denominator divisions as `Option.none`.  Rolling
windows are translated index-by-index.
-/

namespace StockAnalysis

/-- One OHLCV record, mirroring the DataFrame columns
`Open, High, Low, Close, Volume`. -/
structure Bar where
  «open» : ℚ
  high : ℚ
  low : ℚ
  close : ℚ
  volume : ℚ
deriving DecidableEq, Inhabited

/-- `df.iloc[i]` on the date-sorted series (out-of-range reads never occur in
the source loops; we default them to the zero bar). -/
def barAt (bars : List Bar) (i : Nat) : Bar := bars.getD i default

/-- Maximum of a list of rationals, as pandas `.max()` on a non-empty column
(the `[]` case is arbitrary and never used). -/
def listMax : List ℚ → ℚ
  | [] => 0
  | x :: xs => xs.foldl max x

/-- `v` is the maximum of `l`: a member that bounds every member. -/
def isMaxOf (v : ℚ) (l : List ℚ) : Prop := v ∈ l ∧ ∀ x ∈ l, x ≤ v

/-- Sample variance with `ddof=1` (the pandas `.std()` default, squared). -/
def sampleVar (l : List ℚ) : ℚ :=
  let m := l.sum / (l.length : ℚ)
  (l.map (fun x => (x - m) ^ 2)).sum / ((l.length : ℚ) - 1)

/-- The KPI bundle returned by `compute_kpis`.  `daily_return_pct` is
`none` when the Python computation produces a non-finite float value
(division by a zero denominator under numpy yields inf/NaN, silently).
`volatility_sq` is the square of the code's `volatility_pct`
(the code multiplies by the irrational √252, so we track the square, which
is zero exactly when the code's value is zero); it is `none` where pandas
`.std()` with fewer than two samples yields NaN. -/
structure Kpis where
  latest_price : ℚ
  daily_return_pct : Option ℚ
  high_value : ℚ
  high_label : String
  volatility_sq : Option ℚ
  avg_volume : ℚ
deriving DecidableEq

/-- The daily-return fallback chain of `compute_kpis` (kpis.py lines 31-47).
Branch 1 fires only when the supplied previous close is present and non-zero
(Python truthiness: `if prev_close and not pd.isna(prev_close)`); a supplied
NaN is modelled as `none`.  Branch 2 (prior row's close, taken when the
series has more than one bar) divides with no zero guard: a zero prior close
makes the numpy division yield a non-finite value, modelled as `none`.
Branch 3 guards a zero open explicitly, keeping the 0.0 default. -/
def dailyReturnPct (bars : List Bar) (previous_close : Option ℚ) : Option ℚ :=
  match bars with
  | [] => some 0
  | b :: bs =>
    let l := b :: bs
    let latest_price := (l.getLast (List.cons_ne_nil b bs)).close
    let fallback : Option ℚ :=
      if 1 < l.length then
        let prev_row_close := (barAt l (l.length - 2)).close
        if prev_row_close = 0 then none
        else some ((latest_price - prev_row_close) / prev_row_close * 100)
      else
        let open_price := (l.getLast (List.cons_ne_nil b bs)).«open»
        if open_price ≠ 0 then some ((latest_price - open_price) / open_price * 100)
        else some 0
    match previous_close with
    | some pc => if pc ≠ 0 then some ((latest_price - pc) / pc * 100) else fallback
    | none => fallback

/-- The dynamic high metric of `compute_kpis` (kpis.py lines 49-58):
with at least 200 bars, the maximum High over the trailing `min 252 n` bars
labelled "52W High"; otherwise the maximum High of the whole window labelled
"Period High". -/
def highMetric (bars : List Bar) : ℚ × String :=
  if 200 ≤ bars.length then
    let lookback := min 252 bars.length
    (listMax ((bars.map Bar.high).drop (bars.length - lookback)), "52W High")
  else
    (listMax (bars.map Bar.high), "Period High")

/-- `compute_kpis(df, metadata)` from kpis.py.  `previous_close` is the
optional `metadata["previous_close"]` scalar. -/
def computeKpis (bars : List Bar) (previous_close : Option ℚ) : Kpis :=
  match bars with
  | [] =>
    { latest_price := 0
      daily_return_pct := some 0
      high_value := 0
      high_label := "Period High"
      volatility_sq := some 0
      avg_volume := 0 }
  | b :: bs =>
    let l := b :: bs
    let latest_price := (l.getLast (List.cons_ne_nil b bs)).close
    let returns := (List.range l.length).filterMap (fun i =>
      if 1 ≤ i then
        some ((barAt l i).close / (barAt l (i - 1)).close - 1)
      else none)
    let volatility_sq : Option ℚ :=
      if 1 < l.length then
        if 2 ≤ returns.length then some (sampleVar returns * 252 * 10000)
        else none
      else some 0
    { latest_price := latest_price
      daily_return_pct := dailyReturnPct l previous_close
      high_value := (highMetric l).1
      high_label := (highMetric l).2
      volatility_sq := volatility_sq
      avg_volume := (l.map Bar.volume).sum / (l.length : ℚ) }

theorem foldl_max_spec (xs : List ℚ) : ∀ x : ℚ,
    xs.foldl max x ∈ x :: xs ∧ ∀ z ∈ x :: xs, z ≤ xs.foldl max x := by
  induction xs with
  | nil =>
    intro x
    refine ⟨List.mem_singleton_self x, ?_⟩
    intro z hz
    rw [List.mem_singleton] at hz
    simp [hz]
  | cons y ys ih =>
    intro x
    obtain ⟨hmem, hle⟩ := ih (max x y)
    rw [List.foldl_cons]
    constructor
    · rcases List.mem_cons.mp hmem with h | h
      · rcases max_choice x y with hc | hc
        · rw [h, hc]; exact List.mem_cons_self _ _
        · rw [h, hc]
          exact List.mem_cons_of_mem _ (List.mem_cons_self _ _)
      · exact List.mem_cons_of_mem _ (List.mem_cons_of_mem _ h)
    · intro z hz
      rcases List.mem_cons.mp hz with hz | hz
      · subst hz
        exact le_trans (le_max_left z y) (hle _ (List.mem_cons_self _ _))
      · rcases List.mem_cons.mp hz with hz | hz
        · subst hz
          exact le_trans (le_max_right x z) (hle _ (List.mem_cons_self _ _))
        · exact hle _ (List.mem_cons_of_mem _ hz)

theorem listMax_isMax (l : List ℚ) (h : l ≠ []) : isMaxOf (listMax l) l := by
  match l with
  | [] => exact absurd rfl h
  | x :: xs =>
    have hspec := foldl_max_spec xs x
    exact ⟨hspec.1, hspec.2⟩

/-- Claim C8: on the empty input series, `compute_kpis` returns the
all-zero KPI bundle with `high_label = "Period High"` instead of failing
(the empty-check branch at kpis.py lines 13-21; totality of the Lean
function models the absence of an exception). -/
theorem kpis_empty_series_zero_bundle :
    ∀ previous_close : Option ℚ,
      computeKpis [] previous_close =
        { latest_price := 0
          daily_return_pct := some 0
          high_value := 0
          high_label := "Period High"
          volatility_sq := some 0
          avg_volume := 0 } := by
  intro previous_close
  rfl

/-- Claim C3 (code bug): the prior-row-close branch of the daily-return
fallback chain has no zero-denominator guard.  On the two-bar series with
prior close 0 and no external previous close, the code computes
`(5 - 0) / 0 * 100`, a numpy division by zero yielding a non-finite value
(modelled as `none`) instead of the guarded 0.0 default the spec requires. -/
theorem daily_return_zero_prior_close_unguarded :
    (computeKpis [⟨1, 1, 0, 0, 1⟩, ⟨1, 6, 1, 5, 1⟩] none).daily_return_pct = none ∧
    dailyReturnPct [⟨1, 1, 0, 0, 1⟩, ⟨1, 6, 1, 5, 1⟩] none = none := by
  constructor <;> rfl

/-- Claim C9: for a non-empty series of `n` bars, the high metric is the
maximum High over the trailing `min 252 n` bars labelled "52W High" exactly
when `n ≥ 200`, and otherwise the maximum High over the whole window
labelled "Period High" (threshold boundary exactly at 200 bars). -/
theorem kpis_high_metric_threshold (bars : List Bar) (pc : Option ℚ)
    (h : bars ≠ []) :
    (200 ≤ bars.length →
      (computeKpis bars pc).high_label = "52W High" ∧
      isMaxOf (computeKpis bars pc).high_value
        ((bars.map Bar.high).drop (bars.length - min 252 bars.length))) ∧
    (bars.length < 200 →
      (computeKpis bars pc).high_label = "Period High" ∧
      isMaxOf (computeKpis bars pc).high_value (bars.map Bar.high)) := by
  match bars with
  | [] => exact absurd rfl h
  | b :: bs =>
    have hv : (computeKpis (b :: bs) pc).high_value = (highMetric (b :: bs)).1 := rfl
    have hl : (computeKpis (b :: bs) pc).high_label = (highMetric (b :: bs)).2 := rfl
    rw [hv, hl]
    unfold highMetric
    constructor
    · intro h200
      rw [if_pos h200]
      refine ⟨rfl, ?_⟩
      apply listMax_isMax
      intro hnil
      have hlen := congrArg List.length hnil
      simp only [List.length_drop, List.length_map, List.length_nil] at hlen
      omega
    · intro hlt
      rw [if_neg (by omega)]
      exact ⟨rfl, listMax_isMax _ (by simp)⟩

/-- Witness for C9 at a concrete 200-bar series. -/
theorem kpis_high_metric_threshold_witness :
    (200 ≤ (List.replicate 200 (⟨1, 2, 1, 1, 3⟩ : Bar)).length →
      (computeKpis (List.replicate 200 ⟨1, 2, 1, 1, 3⟩) none).high_label = "52W High" ∧
      isMaxOf (computeKpis (List.replicate 200 ⟨1, 2, 1, 1, 3⟩) none).high_value
        (((List.replicate 200 (⟨1, 2, 1, 1, 3⟩ : Bar)).map Bar.high).drop
          ((List.replicate 200 (⟨1, 2, 1, 1, 3⟩ : Bar)).length -
            min 252 (List.replicate 200 (⟨1, 2, 1, 1, 3⟩ : Bar)).length))) ∧
    ((List.replicate 200 (⟨1, 2, 1, 1, 3⟩ : Bar)).length < 200 →
      (computeKpis (List.replicate 200 ⟨1, 2, 1, 1, 3⟩) none).high_label = "Period High" ∧
      isMaxOf (computeKpis (List.replicate 200 ⟨1, 2, 1, 1, 3⟩) none).high_value
        ((List.replicate 200 (⟨1, 2, 1, 1, 3⟩ : Bar)).map Bar.high)) :=
  kpis_high_metric_threshold (List.replicate 200 ⟨1, 2, 1, 1, 3⟩) none (by simp)

/-! ## Indicator Engine (src/indicators.py, `add_indicators`) -/

/-- Gain at index `j` of the Close series: `delta.clip(lower=0)` where
`delta = Close.diff()` (defined for `j ≥ 1`; only evaluated there). -/
def gainAt (closes : List ℚ) (j : Nat) : ℚ :=
  max (closes.getD j 0 - closes.getD (j - 1) 0) 0

/-- Loss at index `j`: `-delta.clip(upper=0)`. -/
def lossAt (closes : List ℚ) (j : Nat) : ℚ :=
  max (-(closes.getD j 0 - closes.getD (j - 1) 0)) 0

/-- `gain.rolling(14).mean()` at index `i`: defined once the window holds 14
non-NaN diffs, i.e. for `14 ≤ i < n`. -/
def avgGain (closes : List ℚ) (i : Nat) : Option ℚ :=
  if 14 ≤ i ∧ i < closes.length then
    some (((List.range 14).map (fun k => gainAt closes (i - k))).sum / 14)
  else none

/-- `loss.rolling(14).mean()` at index `i`. -/
def avgLoss (closes : List ℚ) (i : Nat) : Option ℚ :=
  if 14 ≤ i ∧ i < closes.length then
    some (((List.range 14).map (fun k => lossAt closes (i - k))).sum / 14)
  else none

/-- RSI_14 from indicators.py lines 6-18: `rs = avg_gain / avg_loss.replace(0, 1)`,
`RSI = 100 - 100 / (1 + rs)`, then the explicit override
`df.loc[avg_loss == 0, "RSI"] = 100.0`. -/
def rsi (closes : List ℚ) (i : Nat) : Option ℚ :=
  match avgGain closes i, avgLoss closes i with
  | some g, some l =>
    let rs := g / (if l = 0 then 1 else l)
    let base := 100 - 100 / (1 + rs)
    some (if l = 0 then 100 else base)
  | _, _ => none

/-- OBV direction at index `i`, the code's
`lambda x: 1 if x > 0 else (-1 if x < 0 else 0)` applied to `Close.diff()`;
at index 0 the diff is NaN and both comparisons are false, giving 0. -/
def obvDirection (bars : List Bar) (i : Nat) : ℚ :=
  if i = 0 then 0
  else if (barAt bars (i - 1)).close < (barAt bars i).close then 1
  else if (barAt bars i).close < (barAt bars (i - 1)).close then -1
  else 0

/-- The per-bar OBV increment `direction * Volume`. -/
def obvDelta (bars : List Bar) (i : Nat) : ℚ :=
  obvDirection bars i * (barAt bars i).volume

/-- `OBV = (direction * Volume).cumsum()` at index `i`. -/
def obv (bars : List Bar) (i : Nat) : ℚ :=
  ((List.range (i + 1)).map (obvDelta bars)).sum

/-- Typical price `(High + Low + Close) / 3`. -/
def typicalPrice (b : Bar) : ℚ := (b.high + b.low + b.close) / 3

/-- `df["Volume"].cumsum()` at index `i`. -/
def cumVolume (bars : List Bar) (i : Nat) : ℚ :=
  ((List.range (i + 1)).map (fun j => (barAt bars j).volume)).sum

/-- `(typical_price * Volume).cumsum()` at index `i`. -/
def cumTPV (bars : List Bar) (i : Nat) : ℚ :=
  ((List.range (i + 1)).map (fun j =>
    typicalPrice (barAt bars j) * (barAt bars j).volume)).sum

/-- VWAP at index `i` (indicators.py lines 35-36).  The source divides with
no guard; when the cumulative volume is zero the numpy division yields a
non-finite float (0/0 = NaN), modelled here as `none`. -/
def vwap (bars : List Bar) (i : Nat) : Option ℚ :=
  if cumVolume bars i = 0 then none
  else some (cumTPV bars i / cumVolume bars i)

/-- Claim C5 (code bug): the VWAP computation is not guarded against a zero
cumulative volume.  On a series whose first bar has `Volume = 0`, the code
evaluates `0 / 0`, silently producing the non-finite NaN (modelled as
`none`), contrary to the spec's requirement that zero denominators never
produce non-finite results silently. -/
theorem vwap_zero_cumvolume_nonfinite :
    cumVolume [⟨1, 2, 1, 1, 0⟩] 0 = 0 ∧ vwap [⟨1, 2, 1, 1, 0⟩] 0 = none := by
  constructor <;> simp [vwap, cumVolume, barAt, List.range_succ]

/-- Claim C4: wherever RSI_14 is defined it lies in [0,100], and whenever the
14-bar rolling average loss is exactly zero the RSI equals exactly 100 (set
by the explicit override, never reached through a zero-denominator division:
the formula's denominator is `avg_loss.replace(0, 1)`, which is non-zero). -/
theorem rsi_bounds_and_zero_loss (closes : List ℚ) (i : Nat) (r : ℚ)
    (h : rsi closes i = some r) :
    (0 ≤ r ∧ r ≤ 100) ∧ (avgLoss closes i = some 0 → r = 100) := by
  unfold rsi at h
  rcases hg : avgGain closes i with _ | g <;> rw [hg] at h
  · simp at h
  rcases hl : avgLoss closes i with _ | l <;> rw [hl] at h
  · simp at h
  have hr := (Option.some.inj h).symm
  have hg0 : 0 ≤ g := by
    unfold avgGain at hg
    split at hg
    · rw [← Option.some.inj hg]
      apply div_nonneg _ (by norm_num)
      apply List.sum_nonneg
      intro x hx
      rcases List.mem_map.mp hx with ⟨k, _, rfl⟩
      exact le_max_right _ _
    · exact absurd hg (by simp)
  have hl0 : 0 ≤ l := by
    unfold avgLoss at hl
    split at hl
    · rw [← Option.some.inj hl]
      apply div_nonneg _ (by norm_num)
      apply List.sum_nonneg
      intro x hx
      rcases List.mem_map.mp hx with ⟨k, _, rfl⟩
      exact le_max_right _ _
    · exact absurd hl (by simp)
  by_cases hz : l = 0
  · rw [if_pos hz] at hr
    subst hr
    exact ⟨⟨by norm_num, by norm_num⟩, fun _ => rfl⟩
  · rw [if_neg hz] at hr
    have hlpos : 0 < l := lt_of_le_of_ne hl0 (Ne.symm hz)
    have hrs : 0 ≤ g / (if l = 0 then 1 else l) := by
      rw [if_neg hz]
      exact div_nonneg hg0 (le_of_lt hlpos)
    have hfrac_le : 100 / (1 + g / (if l = 0 then 1 else l)) ≤ 100 :=
      div_le_self (by norm_num) (by linarith)
    have hfrac_nonneg : 0 ≤ 100 / (1 + g / (if l = 0 then 1 else l)) :=
      div_nonneg (by norm_num) (by linarith)
    constructor
    · subst hr
      constructor <;> linarith
    · intro hzero
      exact absurd (Option.some.inj hzero) hz

/-- Witness for C4: a strictly increasing 15-bar Close series has zero
rolling average loss at index 14, where the RSI is exactly 100. -/
theorem rsi_bounds_and_zero_loss_witness :
    rsi [1, 2, 3, 4, 5, 6, 7, 8, 9, 10, 11, 12, 13, 14, 15] 14 = some 100 ∧
    ((0 ≤ (100 : ℚ) ∧ (100 : ℚ) ≤ 100) ∧
      (avgLoss [1, 2, 3, 4, 5, 6, 7, 8, 9, 10, 11, 12, 13, 14, 15] 14 = some 0 →
        (100 : ℚ) = 100)) := by
  have h : rsi [1, 2, 3, 4, 5, 6, 7, 8, 9, 10, 11, 12, 13, 14, 15] 14 = some 100 := by
    norm_num [rsi, avgGain, avgLoss, gainAt, lossAt, List.range_succ]
  exact ⟨h, rsi_bounds_and_zero_loss _ 14 100 h⟩

/-- Claim C7: the OBV increment of the first bar is 0 (its diff is NaN); at
any later bar the increment is `+Volume` when Close rose versus the previous
bar, `-Volume` when it fell, and 0 when unchanged; and OBV is monotonically
non-decreasing over any stretch on which Close is non-decreasing
bar-over-bar (volumes being non-negative, as OHLCV volumes are). -/
theorem obv_delta_sign_and_monotone (bars : List Bar) :
    obvDelta bars 0 = 0
    ∧ (∀ i, 1 ≤ i →
        ((barAt bars (i - 1)).close < (barAt bars i).close →
          obvDelta bars i = (barAt bars i).volume)
        ∧ ((barAt bars i).close < (barAt bars (i - 1)).close →
          obvDelta bars i = -(barAt bars i).volume)
        ∧ ((barAt bars i).close = (barAt bars (i - 1)).close →
          obvDelta bars i = 0))
    ∧ (∀ i j, i ≤ j →
        (∀ k, i < k → k ≤ j → (barAt bars (k - 1)).close ≤ (barAt bars k).close) →
        (∀ k, k < bars.length → 0 ≤ (barAt bars k).volume) →
        obv bars i ≤ obv bars j) := by
  refine ⟨by simp [obvDelta, obvDirection], ?_, ?_⟩
  · intro i hi
    have hne : i ≠ 0 := by omega
    refine ⟨?_, ?_, ?_⟩
    · intro hlt
      simp [obvDelta, obvDirection, hne, hlt]
    · intro hlt
      have hnot : ¬ (barAt bars (i - 1)).close < (barAt bars i).close := lt_asymm hlt
      simp [obvDelta, obvDirection, hne, hlt, hnot]
    · intro heq
      simp [obvDelta, obvDirection, hne, heq, lt_irrefl]
  · intro i j hij hmono hvol
    induction j, hij using Nat.le_induction with
    | base => exact le_refl _
    | succ n hn ih =>
      have hstep : obv bars (n + 1) = obv bars n + obvDelta bars (n + 1) := by
        unfold obv
        rw [List.range_succ, List.map_append, List.sum_append]
        simp
      have hcl : (barAt bars n).close ≤ (barAt bars (n + 1)).close := by
        have := hmono (n + 1) (by omega) (le_refl _)
        simpa using this
      have hdel : 0 ≤ obvDelta bars (n + 1) := by
        by_cases hcase : (barAt bars n).close < (barAt bars (n + 1)).close
        · have hd : obvDelta bars (n + 1) = (barAt bars (n + 1)).volume := by
            simp [obvDelta, obvDirection, hcase]
          rw [hd]
          by_cases hlen : n + 1 < bars.length
          · exact hvol _ hlen
          · have hdef : barAt bars (n + 1) = default := by
              unfold barAt
              exact List.getD_eq_default _ _ (by omega)
            rw [hdef]
            norm_num [default]
        · have hnot2 : ¬ (barAt bars (n + 1)).close < (barAt bars n).close :=
            not_lt.mpr hcl
          have hd : obvDelta bars (n + 1) = 0 := by
            simp [obvDelta, obvDirection, hcase, hnot2]
          rw [hd]
      have hprev : obv bars i ≤ obv bars n :=
        ih (fun k h1 h2 => hmono k h1 (by omega))
      rw [hstep]
      linarith

/-- Witness for C7 on a concrete 3-bar series with closes 1, 2, 2 and
volumes 5, 7, 4. -/
theorem obv_delta_sign_and_monotone_witness :
    obvDelta [⟨0, 0, 0, 1, 5⟩, ⟨0, 0, 0, 2, 7⟩, ⟨0, 0, 0, 2, 4⟩] 1 =
      (barAt [⟨0, 0, 0, 1, 5⟩, ⟨0, 0, 0, 2, 7⟩, ⟨0, 0, 0, 2, 4⟩] 1).volume ∧
    obv [⟨0, 0, 0, 1, 5⟩, ⟨0, 0, 0, 2, 7⟩, ⟨0, 0, 0, 2, 4⟩] 0 ≤
      obv [⟨0, 0, 0, 1, 5⟩, ⟨0, 0, 0, 2, 7⟩, ⟨0, 0, 0, 2, 4⟩] 2 := by
  constructor
  · refine ((obv_delta_sign_and_monotone _).2.1 1 (by norm_num)).1 ?_
    show (1 : ℚ) < 2
    norm_num
  · refine (obv_delta_sign_and_monotone _).2.2 0 2 (by norm_num) ?_ ?_
    · intro k h1 h2
      interval_cases k
      · show (1 : ℚ) ≤ 2; norm_num
      · show (2 : ℚ) ≤ 2; norm_num
    · intro k h
      have h3 : k < 3 := by simpa using h
      interval_cases k
      · show (0 : ℚ) ≤ 5; norm_num
      · show (0 : ℚ) ≤ 7; norm_num
      · show (0 : ℚ) ≤ 4; norm_num

/-! ## Insight Aggregator sentiment classification
(src/patterns.py, `get_pattern_insights`, "Final Sentiment Classification"
block at lines 468-490).  The classification depends only on the modified
sentiment score and the latest bar's Close and Open. -/

/-- The final sentiment classification of `get_pattern_insights`:
assignment followed by the momentum-veto overwrite, exactly as in the
source (`is_red_candle = latest_close < latest_open`,
`is_green_candle = latest_close > latest_open`). -/
def classifySentiment (score latest_close latest_open : ℚ) : String :=
  let is_red_candle := latest_close < latest_open
  let is_green_candle := latest_open < latest_close
  if 8 ≤ score then
    if is_red_candle then "Bullish (but Short-term Pullback)" else "Strongly Bullish"
  else if 3 ≤ score then
    if is_red_candle then "Bullish (Weak Follow-through)" else "Bullish"
  else if score ≤ -8 then
    if is_green_candle then "Bearish (with Short-term Bounce)" else "Strongly Bearish"
  else if score ≤ -3 then "Bearish"
  else "Mixed/Neutral"

/-- Written from the amended claim: eight possible labels; the score bands
map as the spec says except that the plain Bearish band `(-8, -3]` has no
momentum downgrade. -/
def amendedSentiment (score latest_close latest_open : ℚ) : String :=
  if 8 ≤ score ∧ latest_close < latest_open then "Bullish (but Short-term Pullback)"
  else if 8 ≤ score then "Strongly Bullish"
  else if 3 ≤ score ∧ latest_close < latest_open then "Bullish (Weak Follow-through)"
  else if 3 ≤ score then "Bullish"
  else if score ≤ -8 ∧ latest_open < latest_close then "Bearish (with Short-term Bounce)"
  else if score ≤ -8 then "Strongly Bearish"
  else if score ≤ -3 then "Bearish"
  else "Mixed/Neutral"

/-- The eight labels the classification block can produce. -/
def sentimentLabels : List String :=
  ["Bullish (but Short-term Pullback)", "Strongly Bullish",
   "Bullish (Weak Follow-through)", "Bullish",
   "Bearish (with Short-term Bounce)", "Strongly Bearish",
   "Bearish", "Mixed/Neutral"]

/-- Counterexample to claim C2 as stated: the classification block produces
eight pairwise-distinct labels (not seven) — shown by eight concrete inputs
— and the plain Bearish band is never downgraded: score -3 with a green
(momentum-contradicting) latest candle still yields plain "Bearish". -/
theorem sentiment_seven_labels_refuted :
    [classifySentiment 8 0 1, classifySentiment 8 1 0,
     classifySentiment 3 0 1, classifySentiment 3 1 0,
     classifySentiment (-8) 1 0, classifySentiment (-8) 0 1,
     classifySentiment (-3) 0 1, classifySentiment 0 0 0].Nodup ∧
    classifySentiment (-3) 1 0 = "Bearish" := by
  constructor
  · norm_num [classifySentiment]
    decide
  · norm_num [classifySentiment]

/-- Claim C2 amended: the classification produces exactly eight labels.
A modified score ≥ 8 maps to "Strongly Bullish", downgraded to the qualified
pullback label when the latest bar is red; a score in [3, 8) maps to
"Bullish", downgraded when red; a score ≤ -8 maps to "Strongly Bearish",
downgraded to the qualified bounce label when the latest bar is green; a
score in (-8, -3] maps to plain "Bearish" with no downgrade; otherwise
"Mixed/Neutral".  Every output is among the eight labels, the eight labels
are pairwise distinct, and all eight are attained. -/
theorem sentiment_classification_eight_labels :
    (∀ score latest_close latest_open : ℚ,
      classifySentiment score latest_close latest_open =
        amendedSentiment score latest_close latest_open)
    ∧ sentimentLabels.Nodup
    ∧ (∀ score latest_close latest_open : ℚ,
      classifySentiment score latest_close latest_open ∈ sentimentLabels)
    ∧ [classifySentiment 8 0 1, classifySentiment 8 1 0,
       classifySentiment 3 0 1, classifySentiment 3 1 0,
       classifySentiment (-8) 1 0, classifySentiment (-8) 0 1,
       classifySentiment (-3) 0 1, classifySentiment 0 0 0] = sentimentLabels := by
  refine ⟨?_, by decide, ?_, ?_⟩
  · intro s lc lo
    by_cases h1 : (8 : ℚ) ≤ s <;> by_cases h2 : (3 : ℚ) ≤ s <;>
      by_cases h3 : s ≤ (-8 : ℚ) <;> by_cases h4 : s ≤ (-3 : ℚ) <;>
      by_cases h5 : lc < lo <;> by_cases h6 : lo < lc <;>
      simp [classifySentiment, amendedSentiment, h1, h2, h3, h4, h5, h6]
  · intro s lc lo
    by_cases h1 : (8 : ℚ) ≤ s <;> by_cases h2 : (3 : ℚ) ≤ s <;>
      by_cases h3 : s ≤ (-8 : ℚ) <;> by_cases h4 : s ≤ (-3 : ℚ) <;>
      by_cases h5 : lc < lo <;> by_cases h6 : lo < lc <;>
      simp [classifySentiment, sentimentLabels, h1, h2, h3, h4, h5, h6]
  · norm_num [classifySentiment]
    decide

/-- Claim C6: a modified sentiment score of exactly 8 together with a red
latest candle (Close below Open) classifies as the qualified pullback
bullish label, never as "Strongly Bullish". -/
theorem score_eight_red_candle_pullback (latest_close latest_open : ℚ)
    (h : latest_close < latest_open) :
    classifySentiment 8 latest_close latest_open =
      "Bullish (but Short-term Pullback)" ∧
    classifySentiment 8 latest_close latest_open ≠ "Strongly Bullish" := by
  unfold classifySentiment
  rw [if_pos (le_refl (8 : ℚ))]
  simp [h]

/-- Witness for C6 at the concrete red candle Close 1 < Open 2. -/
theorem score_eight_red_candle_pullback_witness :
    (1 : ℚ) < 2 ∧
    (classifySentiment 8 1 2 = "Bullish (but Short-term Pullback)" ∧
      classifySentiment 8 1 2 ≠ "Strongly Bullish") :=
  ⟨by norm_num, score_eight_red_candle_pullback 1 2 (by norm_num)⟩

/-! ## Pattern Detector (src/patterns.py, `detect_candlestick_patterns`)

The loop runs over `i in range(1, len(df))` on the date-sorted series; at
most one pattern is appended per iteration, chosen by a strict first-match
cascade: Morning/Evening Star (3-bar), then Bullish/Bearish Engulfing
(2-bar), then Doji, Hammer, Shooting Star, Marubozu (1-bar).  We embed the
per-index decision as `detectAt` and the emitted sequence as `detect`,
tagging each event with its bar index (the event's Date is the date of that
bar). -/

/-- The nine catalog pattern kinds. -/
inductive Pattern where
  | doji
  | hammer
  | shootingStar
  | bullishMarubozu
  | bearishMarubozu
  | bullishEngulfing
  | bearishEngulfing
  | morningStar
  | eveningStar
deriving DecidableEq

/-- `Body` column: `(Close - Open).abs()`. -/
def body (b : Bar) : ℚ := |b.close - b.«open»|

/-- `Range` column: `High - Low`. -/
def rangeOf (b : Bar) : ℚ := b.high - b.low

/-- `upper_shadow = high - max(open, close)`. -/
def upperShadow (b : Bar) : ℚ := b.high - max b.«open» b.close

/-- `lower_shadow = min(open, close) - low`. -/
def lowerShadow (b : Bar) : ℚ := min b.«open» b.close - b.low

/-- `body_ratio = body / total_range` (evaluated only after the zero-range
skip in the source). -/
def bodyFrac (b : Bar) : ℚ := body b / rangeOf b

/-- `Body.rolling(window=14, min_periods=1).mean()` at index `i`: the mean
of the trailing `min 14 (i+1)` body values. -/
def avgBodyRaw (bars : List Bar) (i : Nat) : ℚ :=
  ((List.range (min 14 (i + 1))).map (fun k => body (barAt bars (i - k)))).sum /
    ((min 14 (i + 1) : Nat) : ℚ)

/-- `Range.rolling(window=14, min_periods=1).mean()` at index `i`. -/
def avgRangeRaw (bars : List Bar) (i : Nat) : ℚ :=
  ((List.range (min 14 (i + 1))).map (fun k => rangeOf (barAt bars (i - k)))).sum /
    ((min 14 (i + 1) : Nat) : ℚ)

/-- `avg_body = float(row["Avg_Body"]) if row["Avg_Body"] > 0 else 0.001`. -/
def adjAvgBody (bars : List Bar) (i : Nat) : ℚ :=
  if 0 < avgBodyRaw bars i then avgBodyRaw bars i else 0.001

/-- `avg_range = float(row["Avg_Range"]) if row["Avg_Range"] > 0 else 0.001`. -/
def adjAvgRange (bars : List Bar) (i : Nat) : ℚ :=
  if 0 < avgRangeRaw bars i then avgRangeRaw bars i else 0.001

/-- `min_body_abs = close_price * 0.003`. -/
def minBodyAbs (bars : List Bar) (i : Nat) : ℚ := (barAt bars i).close * 0.003

/-- The OHLC data-integrity check of patterns.py lines 114-121 (Python
chained comparisons `low <= min(open, close) <= high` and
`low <= max(open, close) <= high`). -/
def barValid (b : Bar) : Prop :=
  b.low ≤ min b.«open» b.close ∧ min b.«open» b.close ≤ b.high ∧
  b.low ≤ max b.«open» b.close ∧ max b.«open» b.close ≤ b.high

instance (b : Bar) : Decidable (barValid b) := by
  unfold barValid; infer_instance

/-- STRICT Morning Star condition (patterns.py lines 151-158), including the
`i >= 2` availability requirement. -/
def morningStarCond (bars : List Bar) (i : Nat) : Prop :=
  2 ≤ i ∧
  (barAt bars (i - 2)).close < (barAt bars (i - 2)).«open» ∧
  minBodyAbs bars i < body (barAt bars (i - 2)) ∧
  0.8 * adjAvgBody bars i < body (barAt bars (i - 2)) ∧
  body (barAt bars (i - 1)) < 0.5 * adjAvgBody bars i ∧
  (barAt bars i).«open» < (barAt bars i).close ∧
  minBodyAbs bars i < body (barAt bars i) ∧
  0.8 * adjAvgBody bars i < body (barAt bars i) ∧
  ((barAt bars (i - 2)).«open» + (barAt bars (i - 2)).close) / 2 < (barAt bars i).close

instance (bars : List Bar) (i : Nat) : Decidable (morningStarCond bars i) := by
  unfold morningStarCond; infer_instance

/-- STRICT Evening Star condition (patterns.py lines 164-171). -/
def eveningStarCond (bars : List Bar) (i : Nat) : Prop :=
  2 ≤ i ∧
  (barAt bars (i - 2)).«open» < (barAt bars (i - 2)).close ∧
  minBodyAbs bars i < body (barAt bars (i - 2)) ∧
  0.8 * adjAvgBody bars i < body (barAt bars (i - 2)) ∧
  body (barAt bars (i - 1)) < 0.5 * adjAvgBody bars i ∧
  (barAt bars i).close < (barAt bars i).«open» ∧
  minBodyAbs bars i < body (barAt bars i) ∧
  0.8 * adjAvgBody bars i < body (barAt bars i) ∧
  (barAt bars i).close < ((barAt bars (i - 2)).«open» + (barAt bars (i - 2)).close) / 2

instance (bars : List Bar) (i : Nat) : Decidable (eveningStarCond bars i) := by
  unfold eveningStarCond; infer_instance

/-- STRICT Bullish Engulfing condition (patterns.py lines 185-190). -/
def bullishEngulfingCond (bars : List Bar) (i : Nat) : Prop :=
  (barAt bars (i - 1)).close < (barAt bars (i - 1)).«open» ∧
  (barAt bars i).«open» < (barAt bars i).close ∧
  (barAt bars i).«open» < (barAt bars (i - 1)).close ∧
  (barAt bars (i - 1)).«open» < (barAt bars i).close ∧
  minBodyAbs bars i < body (barAt bars i) ∧
  0.8 * adjAvgBody bars i < body (barAt bars i)

instance (bars : List Bar) (i : Nat) : Decidable (bullishEngulfingCond bars i) := by
  unfold bullishEngulfingCond; infer_instance

/-- STRICT Bearish Engulfing condition (patterns.py lines 196-201). -/
def bearishEngulfingCond (bars : List Bar) (i : Nat) : Prop :=
  (barAt bars (i - 1)).«open» < (barAt bars (i - 1)).close ∧
  (barAt bars i).close < (barAt bars i).«open» ∧
  (barAt bars (i - 1)).close < (barAt bars i).«open» ∧
  (barAt bars i).close < (barAt bars (i - 1)).«open» ∧
  minBodyAbs bars i < body (barAt bars i) ∧
  0.8 * adjAvgBody bars i < body (barAt bars i)

instance (bars : List Bar) (i : Nat) : Decidable (bearishEngulfingCond bars i) := by
  unfold bearishEngulfingCond; infer_instance

/-- Doji condition (patterns.py line 212). -/
def dojiCond (bars : List Bar) (i : Nat) : Prop :=
  bodyFrac (barAt bars i) < 0.1 ∧ 0 < rangeOf (barAt bars i)

instance (bars : List Bar) (i : Nat) : Decidable (dojiCond bars i) := by
  unfold dojiCond; infer_instance

/-- STRICT Hammer condition (patterns.py lines 220-224). -/
def hammerCond (bars : List Bar) (i : Nat) : Prop :=
  0 < body (barAt bars i) ∧
  minBodyAbs bars i < rangeOf (barAt bars i) ∧
  2 * body (barAt bars i) ≤ lowerShadow (barAt bars i) ∧
  upperShadow (barAt bars i) ≤ body (barAt bars i) * 0.1 ∧
  0.8 * adjAvgRange bars i < rangeOf (barAt bars i)

instance (bars : List Bar) (i : Nat) : Decidable (hammerCond bars i) := by
  unfold hammerCond; infer_instance

/-- STRICT Shooting Star condition (patterns.py lines 232-236). -/
def shootingStarCond (bars : List Bar) (i : Nat) : Prop :=
  0 < body (barAt bars i) ∧
  minBodyAbs bars i < rangeOf (barAt bars i) ∧
  2 * body (barAt bars i) ≤ upperShadow (barAt bars i) ∧
  lowerShadow (barAt bars i) ≤ body (barAt bars i) * 0.1 ∧
  0.8 * adjAvgRange bars i < rangeOf (barAt bars i)

instance (bars : List Bar) (i : Nat) : Decidable (shootingStarCond bars i) := by
  unfold shootingStarCond; infer_instance

/-- STRICT Marubozu condition (patterns.py lines 244-248), before the
bullish/bearish sub-classification. -/
def marubozuCond (bars : List Bar) (i : Nat) : Prop :=
  0.97 < bodyFrac (barAt bars i) ∧
  minBodyAbs bars i < body (barAt bars i) ∧
  upperShadow (barAt bars i) < body (barAt bars i) * 0.03 ∧
  lowerShadow (barAt bars i) < body (barAt bars i) * 0.03 ∧
  1.2 * adjAvgBody bars i < body (barAt bars i)

instance (bars : List Bar) (i : Nat) : Decidable (marubozuCond bars i) := by
  unfold marubozuCond; infer_instance

/-- One iteration of the detection loop: the pattern emitted at bar `i`
(`none` if the loop does not visit `i`, a `continue` guard fires, or no
rule matches).  The cascade order is the source's: 3-bar patterns first,
then engulfing, then the single-bar rules. -/
def detectAt (bars : List Bar) (i : Nat) : Option Pattern :=
  if ¬ (1 ≤ i ∧ i < bars.length) then none
  else if ¬ barValid (barAt bars i) then none
  else if ¬ barValid (barAt bars (i - 1)) then none
  else if rangeOf (barAt bars i) = 0 then none
  else if morningStarCond bars i then some .morningStar
  else if eveningStarCond bars i then some .eveningStar
  else if bullishEngulfingCond bars i then some .bullishEngulfing
  else if bearishEngulfingCond bars i then some .bearishEngulfing
  else if dojiCond bars i then some .doji
  else if hammerCond bars i then some .hammer
  else if shootingStarCond bars i then some .shootingStar
  else if marubozuCond bars i then
    if (barAt bars i).«open» < (barAt bars i).close then some .bullishMarubozu
    else some .bearishMarubozu
  else none

/-- The full detection pass: the ordered event sequence, each event tagged
with its bar index. -/
def detect (bars : List Bar) : List (Nat × Pattern) :=
  (List.range bars.length).filterMap (fun i => (detectAt bars i).map (fun p => (i, p)))

theorem mem_of_mem_fst_filterMap {α : Type} (f : Nat → Option α) (t : List Nat)
    (a : Nat)
    (h : a ∈ (t.filterMap (fun i => (f i).map (fun p => (i, p)))).map Prod.fst) :
    a ∈ t := by
  rcases List.mem_map.mp h with ⟨e, he, hfst⟩
  rcases List.mem_filterMap.mp he with ⟨i, hi, heq⟩
  cases hfi : f i with
  | none => rw [hfi] at heq; simp at heq
  | some q =>
    rw [hfi] at heq
    have he2 : e = (i, q) := by simpa using heq.symm
    rw [he2] at hfst
    simp at hfst
    rwa [← hfst]

theorem nodup_fst_filterMap {α : Type} (f : Nat → Option α) (l : List Nat)
    (hl : l.Nodup) :
    ((l.filterMap (fun i => (f i).map (fun p => (i, p)))).map Prod.fst).Nodup := by
  induction l with
  | nil => simp
  | cons a t ih =>
    have ht := ih (List.nodup_cons.mp hl).2
    cases hfa : f a with
    | none => simpa [List.filterMap_cons, hfa] using ht
    | some p =>
      simp only [List.filterMap_cons, hfa, Option.map_some', List.map_cons]
      refine List.nodup_cons.mpr ⟨?_, ht⟩
      intro hmem
      exact (List.nodup_cons.mp hl).1 (mem_of_mem_fst_filterMap f t a hmem)

/-- Claim C1: the Pattern Detector emits at most one event per bar (the bar
indices of the emitted event sequence are pairwise distinct), detection is
deterministic/idempotent (the pure pass yields the identical sequence when
re-run), and within a visited bar the first matching rule in the priority
order Morning Star, Evening Star, Bullish Engulfing, Bearish Engulfing,
Doji, Hammer, Shooting Star, Marubozu wins. -/
theorem detect_one_event_per_bar_deterministic :
    (∀ bars : List Bar, ((detect bars).map Prod.fst).Nodup)
    ∧ (∀ bars : List Bar, detect bars = detect bars)
    ∧ (∀ (bars : List Bar) (i : Nat),
        1 ≤ i → i < bars.length → barValid (barAt bars i) →
        barValid (barAt bars (i - 1)) → rangeOf (barAt bars i) ≠ 0 →
        ((morningStarCond bars i → detectAt bars i = some Pattern.morningStar)
        ∧ (¬ morningStarCond bars i → eveningStarCond bars i →
            detectAt bars i = some Pattern.eveningStar)
        ∧ (¬ morningStarCond bars i → ¬ eveningStarCond bars i →
            bullishEngulfingCond bars i →
            detectAt bars i = some Pattern.bullishEngulfing)
        ∧ (¬ morningStarCond bars i → ¬ eveningStarCond bars i →
            ¬ bullishEngulfingCond bars i → bearishEngulfingCond bars i →
            detectAt bars i = some Pattern.bearishEngulfing)
        ∧ (¬ morningStarCond bars i → ¬ eveningStarCond bars i →
            ¬ bullishEngulfingCond bars i → ¬ bearishEngulfingCond bars i →
            dojiCond bars i → detectAt bars i = some Pattern.doji)
        ∧ (¬ morningStarCond bars i → ¬ eveningStarCond bars i →
            ¬ bullishEngulfingCond bars i → ¬ bearishEngulfingCond bars i →
            ¬ dojiCond bars i → hammerCond bars i →
            detectAt bars i = some Pattern.hammer)
        ∧ (¬ morningStarCond bars i → ¬ eveningStarCond bars i →
            ¬ bullishEngulfingCond bars i → ¬ bearishEngulfingCond bars i →
            ¬ dojiCond bars i → ¬ hammerCond bars i → shootingStarCond bars i →
            detectAt bars i = some Pattern.shootingStar)
        ∧ (¬ morningStarCond bars i → ¬ eveningStarCond bars i →
            ¬ bullishEngulfingCond bars i → ¬ bearishEngulfingCond bars i →
            ¬ dojiCond bars i → ¬ hammerCond bars i → ¬ shootingStarCond bars i →
            marubozuCond bars i →
            ((barAt bars i).«open» < (barAt bars i).close →
              detectAt bars i = some Pattern.bullishMarubozu)
            ∧ (¬ (barAt bars i).«open» < (barAt bars i).close →
              detectAt bars i = some Pattern.bearishMarubozu))
        ∧ (¬ morningStarCond bars i → ¬ eveningStarCond bars i →
            ¬ bullishEngulfingCond bars i → ¬ bearishEngulfingCond bars i →
            ¬ dojiCond bars i → ¬ hammerCond bars i → ¬ shootingStarCond bars i →
            ¬ marubozuCond bars i → detectAt bars i = none))) := by
  refine ⟨?_, fun bars => rfl, ?_⟩
  · intro bars
    exact nodup_fst_filterMap _ _ (List.nodup_range _)
  · intro bars i h1 h2 hv hvp hr
    refine ⟨?_, ?_, ?_, ?_, ?_, ?_, ?_, ?_, ?_⟩ <;>
      intros <;>
      simp [detectAt, h1, h2, hv, hvp, hr, *]

/-- Witness for C1's priority cascade: on a concrete two-bar series whose
second bar is a small-bodied wide-range candle, no higher-priority rule
matches and the Doji rule fires. -/
theorem detect_one_event_per_bar_deterministic_witness :
    detectAt [⟨100, 101, 99, 100.5, 0⟩, ⟨100, 105, 95, 100.2, 0⟩] 1 =
      some Pattern.doji :=
  (detect_one_event_per_bar_deterministic.2.2
      [⟨100, 101, 99, 100.5, 0⟩, ⟨100, 105, 95, 100.2, 0⟩] 1
      (by norm_num) (by norm_num)
      (by norm_num [barValid, barAt])
      (by norm_num [barValid, barAt])
      (by norm_num [rangeOf, barAt])).2.2.2.2.1
    (by norm_num [morningStarCond])
    (by norm_num [eveningStarCond])
    (by norm_num [bullishEngulfingCond, barAt])
    (by norm_num [bearishEngulfingCond, barAt])
    (by norm_num [dojiCond, bodyFrac, body, rangeOf, barAt, abs_of_nonneg])

/-- Claim C10: whenever the bar immediately preceding bar `i` violates the
OHLC consistency invariant, the detector emits no event at bar `i` (the
integrity `continue` at patterns.py lines 119-121 fires regardless of bar
`i`'s own validity). -/
theorem invalid_prev_bar_suppresses_detection (bars : List Bar) (i : Nat)
    (h : ¬ barValid (barAt bars (i - 1))) : detectAt bars i = none := by
  by_cases hg : (1 ≤ i ∧ i < bars.length)
  · by_cases hv : barValid (barAt bars i)
    · simp [detectAt, hg, hv, h]
    · simp [detectAt, hg, hv]
  · simp [detectAt, hg]

/-- Witness for C10: the first bar has `Low > min(Open, Close)` (invalid),
the second bar is a well-formed candle that would otherwise be a Doji, and
no event is emitted at bar 1. -/
theorem invalid_prev_bar_suppresses_detection_witness :
    ¬ barValid (barAt [⟨10, 9, 11, 10, 0⟩, ⟨100, 105, 95, 100.2, 0⟩] 0) ∧
    detectAt [⟨10, 9, 11, 10, 0⟩, ⟨100, 105, 95, 100.2, 0⟩] 1 = none :=
  ⟨by norm_num [barValid, barAt],
   invalid_prev_bar_suppresses_detection _ 1 (by norm_num [barValid, barAt])⟩

end StockAnalysis
